import Mathlib

/-!
Shallow embedding of `computer_use_demo/token_manager.py` (the credential
resolution subsystem): keychain access, JSON-payload extraction, the
three-store resolution pipeline, environment override and environment
materialization.

Modelling conventions:
* The macOS keychain is a function `Keychain : String → Option String → Option String`
  mapping (service, optional account) to the raw secret payload; `none`
  covers both a nonzero `security` exit code and an access exception
  (both are mapped to `None` by `_get_keychain_password`).
* Python exceptions that the code does not catch are modelled with
  `Except PyError`; `json.JSONDecodeError` is always caught where
  `json.loads` is called, so parse failure is `Option.none` of `json_loads`.
* Each resolution function also returns the list of keychain queries it
  issued, in order, so that "store X is never queried" is statable.
* JSON documents are modelled by the inductive `Json`; `json_loads` is an
  executable recursive-descent parser modelling `json.loads` (numbers are
  modelled as integers and `\u` string escapes are not modelled; no claim
  depends on these).
-/

/-- JSON values, as produced by `json.loads`. Object fields keep Python
dict semantics: the parser replaces the value of a duplicated key. -/
inductive Json where
  | null
  | bool (b : Bool)
  | num (n : Int)
  | str (s : String)
  | arr (elems : List Json)
  | obj (fields : List (String × Json))

/-- Python exceptions that can escape the token-manager code. -/
inductive PyError where
  | attributeError
  | typeError
  | keyError
deriving DecidableEq, Repr

/-- Python truthiness of a JSON value (`bool(x)`). -/
def pyTruthy : Json → Bool
  | Json.null => false
  | Json.bool b => b
  | Json.num n => n != 0
  | Json.str s => s != ""
  | Json.arr l => !l.isEmpty
  | Json.obj l => !l.isEmpty

/-- Python truthiness of an `Optional` value (`None` is falsy). -/
def pyTruthyOpt : Option Json → Bool
  | none => false
  | some v => pyTruthy v

/-- Characters stripped by Python `str.strip()` (ASCII whitespace). -/
def pyIsSpace (c : Char) : Bool :=
  c == ' ' || c == '\t' || c == '\n' || c == '\r' || c == '\x0b' || c == '\x0c'

/-- Python `str.strip()`: remove leading and trailing whitespace. -/
def pyStrip (s : String) : String :=
  String.mk (((s.data.dropWhile pyIsSpace).reverse.dropWhile pyIsSpace).reverse)

/-- Python `str.startswith(pre)`. -/
def pyStartswith (s pre : String) : Bool :=
  List.isPrefixOf pre.data s.data

/-- Substring test on character lists (Python `pat in s` for strings). -/
def listContainsSub (pat : List Char) : List Char → Bool
  | [] => pat.isEmpty
  | c :: cs => List.isPrefixOf pat (c :: cs) || listContainsSub pat (cs : List Char)

/-- Python `key in data` for a JSON value: key membership for dicts,
element equality for lists, substring test for strings, `TypeError`
otherwise. -/
def pyContains (data : Json) (key : String) : Except PyError Bool :=
  match data with
  | Json.obj d => Except.ok (d.any (fun p => p.1 == key))
  | Json.arr l => Except.ok (l.any (fun v => match v with
      | Json.str s => s == key
      | _ => false))
  | Json.str s => Except.ok (listContainsSub key.data s.data || key == "")
  | _ => Except.error PyError.typeError

/-- Python `data[key]` with a string key: dict lookup (`KeyError` when
absent), `TypeError` for lists/strings/non-subscriptables. -/
def pySubscript (data : Json) (key : String) : Except PyError Json :=
  match data with
  | Json.obj d =>
    match List.lookup key d with
    | some v => Except.ok v
    | none => Except.error PyError.keyError
  | _ => Except.error PyError.typeError

/-- Python `data.get(key, default)`: only dicts have `.get`; every other
JSON value raises `AttributeError`. -/
def pyGet (data : Json) (key : String) (dflt : Json) : Except PyError Json :=
  match data with
  | Json.obj d => Except.ok ((List.lookup key d).getD dflt)
  | _ => Except.error PyError.attributeError

/-! ### A model of `json.loads` -/

/-- Skip JSON insignificant whitespace. -/
def skipWs : List Char → List Char
  | c :: cs => if c == ' ' || c == '\t' || c == '\n' || c == '\r' then skipWs cs else c :: cs
  | [] => []

/-- The single-character JSON string escapes, (escape letter, decoded). -/
def escapeTable : List (Char × Char) :=
  [('"', '"'), ('\\', '\\'), ('/', '/'), ('n', '\n'), ('t', '\t'),
   ('r', '\r'), ('b', Char.ofNat 8), ('f', Char.ofNat 12)]

/-- Decode a single-character JSON string escape (`\u` is not modelled). -/
def parseEscape (c : Char) : Option Char :=
  (escapeTable.find? (fun p => p.1 == c)).map Prod.snd

/-- Parse the body of a JSON string literal after the opening quote. -/
def parseStringBody (acc : List Char) : List Char → Option (String × List Char)
  | '"' :: cs => some (String.mk acc.reverse, cs)
  | '\\' :: c :: cs =>
    match parseEscape c with
    | some e => parseStringBody (e :: acc) cs
    | none => none
  | c :: cs => if c == '\\' then none else parseStringBody (c :: acc) cs
  | [] => none

/-- Accumulate decimal digits into a natural number. -/
def digitsToNat (acc : Nat) : List Char → Nat
  | [] => acc
  | c :: cs => digitsToNat (acc * 10 + (c.toNat - '0'.toNat)) cs

/-- Insert a field into an object, replacing an existing key
(Python dict semantics for duplicate JSON keys). -/
def insertReplace (k : String) (v : Json) : List (String × Json) → List (String × Json)
  | [] => [(k, v)]
  | (k', v') :: rest =>
    if k' == k then (k', v) :: rest else (k', v') :: insertReplace k v rest

/-- Drop the rest of a literal keyword (the part after its first
character) from the front of the input, when present. -/
def stripKeywordTail (kw : String) (cs : List Char) : Option (List Char) :=
  if List.isPrefixOf kw.data cs then some (cs.drop kw.length) else none

mutual

/-- Parse one JSON value; returns the value and the remaining input. -/
def parseValue : Nat → List Char → Option (Json × List Char)
  | 0, _ => none
  | fuel + 1, cs =>
    match skipWs cs with
    | [] => none
    | c :: rest =>
      if c == '{' then
        match skipWs rest with
        | '}' :: rest2 => some (Json.obj [], rest2)
        | rest2 => parseMembers fuel rest2 []
      else if c == '[' then
        match skipWs rest with
        | ']' :: rest2 => some (Json.arr [], rest2)
        | rest2 => parseElems fuel rest2 []
      else if c == '"' then
        (parseStringBody [] rest).map (fun p => (Json.str p.1, p.2))
      else if c == 't' then
        (stripKeywordTail "rue" rest).map (fun r => (Json.bool true, r))
      else if c == 'f' then
        (stripKeywordTail "alse" rest).map (fun r => (Json.bool false, r))
      else if c == 'n' then
        (stripKeywordTail "ull" rest).map (fun r => (Json.null, r))
      else if c == '-' then
        match rest.span Char.isDigit with
        | ([], _) => none
        | (ds, rest2) => some (Json.num (-(digitsToNat 0 ds : Int)), rest2)
      else if c.isDigit then
        match (c :: rest).span Char.isDigit with
        | (ds, rest2) => some (Json.num (digitsToNat 0 ds : Int), rest2)
      else none

/-- Parse the members of a JSON object after `{` (nonempty case). -/
def parseMembers : Nat → List Char → List (String × Json) → Option (Json × List Char)
  | 0, _, _ => none
  | fuel + 1, cs, acc =>
    match skipWs cs with
    | '"' :: rest =>
      match parseStringBody [] rest with
      | none => none
      | some (key, r1) =>
        match skipWs r1 with
        | ':' :: r2 =>
          match parseValue fuel r2 with
          | none => none
          | some (v, r3) =>
            match skipWs r3 with
            | ',' :: r4 => parseMembers fuel r4 (insertReplace key v acc)
            | '}' :: r4 => some (Json.obj (insertReplace key v acc), r4)
            | _ => none
        | _ => none
    | _ => none

/-- Parse the elements of a JSON array after `[` (nonempty case). -/
def parseElems : Nat → List Char → List Json → Option (Json × List Char)
  | 0, _, _ => none
  | fuel + 1, cs, acc =>
    match parseValue fuel cs with
    | none => none
    | some (v, r1) =>
      match skipWs r1 with
      | ',' :: r2 => parseElems fuel r2 (acc ++ [v])
      | ']' :: r2 => some (Json.arr (acc ++ [v]), r2)
      | _ => none

end

/-- Model of `json.loads`: parse a complete JSON document; `none` models
`json.JSONDecodeError`. -/
def json_loads (s : String) : Option Json :=
  match parseValue (s.length + 2) s.data with
  | some (v, rest) => if (skipWs rest).isEmpty then some v else none
  | none => none

/-! ### The token manager (`token_manager.py`) -/

/-- `ClaudeCredentials`: container for Claude/Anthropic authentication
credentials. Fields hold arbitrary Python values in the source (the type
annotations are not enforced), hence `Option Json`. -/
structure ClaudeCredentials where
  api_key : Option Json := none
  mcp_oauth_tokens : Option Json := none
  session_token : Option Json := none

/-- The macOS keychain, abstracted: (service, optional account) ↦ raw
secret payload; `none` models both a failing `security` invocation and an
access exception. -/
def Keychain : Type := String → Option String → Option String

/-- A keychain query issued by the pipeline: (service, account) as passed
to `security find-generic-password`. -/
def KQuery : Type := String × Option String

/-- `TokenManager._get_keychain_password`: run
`security find-generic-password -s service -w [-a account]`; on success
return `result.stdout.strip()`, otherwise `None` (errors are swallowed). -/
def _get_keychain_password (kc : Keychain) (service : String)
    (account : Option String) : Option String :=
  (kc service account).map pyStrip

/-- `TokenManager._extract_api_key_from_mcp_credentials`: parse the JSON
payload and look for an API key, in order: top-level `"apiKey"`, then
`"apiKey"` under a dict-valued `"anthropic"`, then record `"mcpOAuth"`
presence (log only) and return `None`. Only `json.JSONDecodeError` is
caught; other exceptions propagate. -/
def _extract_api_key_from_mcp_credentials (credentials_json : String) :
    Except PyError (Option Json) :=
  match json_loads credentials_json with
  | none => Except.ok none
  | some data =>
    match pyContains data "apiKey" with
    | Except.error e => Except.error e
    | Except.ok true =>
      match pySubscript data "apiKey" with
      | Except.error e => Except.error e
      | Except.ok v => Except.ok (some v)
    | Except.ok false =>
      match pyContains data "anthropic" with
      | Except.error e => Except.error e
      | Except.ok canth =>
      match (if canth then (pySubscript data "anthropic").map (fun sub =>
               match sub with
               | Json.obj a => some (Json.obj a)
               | _ => none)
             else Except.ok none) with
      | Except.error e => Except.error e
      | Except.ok (some sub) =>
        match pyContains sub "apiKey" with
        | Except.error e => Except.error e
        | Except.ok true =>
          match pySubscript sub "apiKey" with
          | Except.error e => Except.error e
          | Except.ok v => Except.ok (some v)
        | Except.ok false =>
          match pyContains data "mcpOAuth" with
          | Except.error e => Except.error e
          | Except.ok _ => Except.ok none
      | Except.ok none =>
        match pyContains data "mcpOAuth" with
        | Except.error e => Except.error e
        | Except.ok _ => Except.ok none

/-- Third step of `get_claude_credentials`: query `"Claude Safe Storage"`
(no account) and, when a truthy value came back and no API key is set,
store it as `session_token`. Never raises. -/
def gccStep3 (kc : Keychain) (credentials : ClaudeCredentials) :
    Except PyError ClaudeCredentials × List KQuery :=
  let q3 : KQuery := ("Claude Safe Storage", none)
  match _get_keychain_password kc "Claude Safe Storage" none with
  | some s =>
    if s != "" && !(pyTruthyOpt credentials.api_key) then
      (Except.ok { credentials with session_token := some (Json.str s) }, [q3])
    else (Except.ok credentials, [q3])
  | none => (Except.ok credentials, [q3])

/-- Second step of `get_claude_credentials`: query
`"Claude Code-credentials"`; on a truthy payload, `json.loads` it
(`JSONDecodeError` caught → fall through), record
`creds_data.get("mcpOAuth", {})` (raises `AttributeError` on a non-dict),
extract an API key and return immediately when it is truthy; otherwise
fall through to `gccStep3`. -/
def gccStep2 (kc : Keychain) (account : Option String)
    (credentials : ClaudeCredentials) :
    Except PyError ClaudeCredentials × List KQuery :=
  let q2 : KQuery := ("Claude Code-credentials", account)
  let skip :=
    let r3 := gccStep3 kc credentials
    (r3.1, q2 :: r3.2)
  match _get_keychain_password kc "Claude Code-credentials" account with
  | none => skip
  | some s =>
    if s == "" then skip
    else
      match json_loads s with
      | none => skip
      | some creds_data =>
        match pyGet creds_data "mcpOAuth" (Json.obj []) with
        | Except.error e => (Except.error e, [q2])
        | Except.ok mo =>
          let credentials := { credentials with mcp_oauth_tokens := some mo }
          match _extract_api_key_from_mcp_credentials s with
          | Except.error e => (Except.error e, [q2])
          | Except.ok api_key =>
            if pyTruthyOpt api_key then
              (Except.ok { credentials with api_key := api_key }, [q2])
            else
              let r3 := gccStep3 kc credentials
              (r3.1, q2 :: r3.2)

/-- `TokenManager.get_claude_credentials`: query `"Claude Code"` first and
return immediately when the payload starts with `sk-ant-`; otherwise fall
through to the `"Claude Code-credentials"` and `"Claude Safe Storage"`
steps. Also returns the ordered list of keychain queries issued. -/
def get_claude_credentials (kc : Keychain) (account : Option String) :
    Except PyError ClaudeCredentials × List KQuery :=
  let q1 : KQuery := ("Claude Code", account)
  let rest := gccStep2 kc account {}
  let next := (rest.1, q1 :: rest.2)
  match _get_keychain_password kc "Claude Code" account with
  | some s =>
    if s != "" && pyStartswith s "sk-ant-" then
      (Except.ok { api_key := some (Json.str s) }, [q1])
    else next
  | none => next

/-- `TokenManager.get_anthropic_api_key`: return a truthy
`ANTHROPIC_API_KEY` environment value immediately (no keychain query);
otherwise delegate to `get_claude_credentials()` (no account) and return
its `api_key` when truthy, else `None`. -/
def get_anthropic_api_key (env : Option String) (kc : Keychain) :
    Except PyError (Option Json) × List KQuery :=
  let delegate :=
    let r := get_claude_credentials kc none
    match r.1 with
    | Except.error e => (Except.error e, r.2)
    | Except.ok credentials =>
      (Except.ok (if pyTruthyOpt credentials.api_key then credentials.api_key
                  else none), r.2)
  match env with
  | some s => if s != "" then (Except.ok (some (Json.str s)), []) else delegate
  | none => delegate

/-- `TokenManager.setup_environment`: build a fresh mapping holding
`ANTHROPIC_API_KEY` when `get_anthropic_api_key()` returned a truthy
value, else the empty mapping. The `account` argument is accepted but not
forwarded. -/
def setup_environment (env : Option String) (kc : Keychain)
    (account : Option String) :
    Except PyError (List (String × Json)) × List KQuery :=
  let r := get_anthropic_api_key env kc
  match r.1 with
  | Except.error e => (Except.error e, r.2)
  | Except.ok api_key =>
    match api_key with
    | some v =>
      if pyTruthy v then (Except.ok [("ANTHROPIC_API_KEY", v)], r.2)
      else (Except.ok [], r.2)
    | none => (Except.ok [], r.2)

/-! ### Structural lemmas about the resolution pipeline -/

/-- Python `key in dict` agrees with the success of dict lookup. -/
theorem any_key_eq_lookup (k : String) (d : List (String × Json)) :
    d.any (fun p => p.1 == k) = (List.lookup k d).isSome := by
  induction d with
  | nil => rfl
  | cons hd tl ih =>
    obtain ⟨k', v⟩ := hd
    by_cases h : k = k'
    · subst h
      simp [List.lookup]
    · have hb : (k == k') = false := by simp [h]
      have hb2 : (k' == k) = false := by simp [Ne.symm h]
      simp [List.lookup, hb, hb2, ih]

/-- The `"Claude Safe Storage"` step never raises, issues exactly one
query, and never touches `api_key` or `mcp_oauth_tokens`. -/
theorem gccStep3_fields (kc : Keychain) (cr : ClaudeCredentials) :
    ∃ c, gccStep3 kc cr = (Except.ok c, [("Claude Safe Storage", none)])
      ∧ c.api_key = cr.api_key ∧ c.mcp_oauth_tokens = cr.mcp_oauth_tokens := by
  unfold gccStep3
  cases hk : _get_keychain_password kc "Claude Safe Storage" none with
  | none => exact ⟨cr, rfl, rfl, rfl⟩
  | some s =>
    by_cases hc : (s != "" && !(pyTruthyOpt cr.api_key)) = true
    · exact ⟨{ cr with session_token := some (Json.str s) }, by simp [hc], rfl, rfl⟩
    · exact ⟨cr, by simp [hc], rfl, rfl⟩

/-- Shape of the second+third step outcomes when entered with a fresh
bundle: either a truthy extracted key from store two (store three not
queried), or a fall-through to store three with no `api_key`, or a raised
exception after the store-two query. -/
theorem gccStep2_shape (kc : Keychain) (account : Option String) :
    (∃ v mo, gccStep2 kc account {} =
        (Except.ok { api_key := some v, mcp_oauth_tokens := some mo, session_token := none },
         [("Claude Code-credentials", account)])
        ∧ pyTruthy v = true)
    ∨ (∃ c, gccStep2 kc account {} =
        (Except.ok c,
         [("Claude Code-credentials", account), ("Claude Safe Storage", none)])
        ∧ c.api_key = none)
    ∨ (∃ e, gccStep2 kc account {} =
        (Except.error e, [("Claude Code-credentials", account)])) := by
  have hskip : ∀ cr : ClaudeCredentials, cr.api_key = none →
      ∃ c, (let r3 := gccStep3 kc cr; ((r3.1, ("Claude Code-credentials", account) :: r3.2)) :
              Except PyError ClaudeCredentials × List KQuery) =
        (Except.ok c, [("Claude Code-credentials", account), ("Claude Safe Storage", none)])
        ∧ c.api_key = none := by
    intro cr hcr
    obtain ⟨c, hc, hak, _⟩ := gccStep3_fields kc cr
    exact ⟨c, by simp [hc], hak.trans hcr⟩
  unfold gccStep2
  cases hk : _get_keychain_password kc "Claude Code-credentials" account with
  | none =>
    right; left
    obtain ⟨c, hc, hak⟩ := hskip {} rfl
    exact ⟨c, by simpa using hc, hak⟩
  | some s =>
    by_cases hs : (s == "") = true
    · right; left
      obtain ⟨c, hc, hak⟩ := hskip {} rfl
      exact ⟨c, by simp [hs]; simpa using hc, hak⟩
    · cases hj : json_loads s with
      | none =>
        right; left
        obtain ⟨c, hc, hak⟩ := hskip {} rfl
        exact ⟨c, by simp [hs, hj]; simpa using hc, hak⟩
      | some creds_data =>
        cases hg : pyGet creds_data "mcpOAuth" (Json.obj []) with
        | error e => right; right; exact ⟨e, by simp [hs, hj, hg]⟩
        | ok mo =>
          cases he : _extract_api_key_from_mcp_credentials s with
          | error e => right; right; exact ⟨e, by simp [hs, hj, hg, he]⟩
          | ok api_key =>
            cases hak : api_key with
            | some v =>
              by_cases ht : pyTruthy v = true
              · left
                exact ⟨v, mo, by simp [hs, hj, hg, he, hak, pyTruthyOpt, ht], ht⟩
              · right; left
                obtain ⟨c, hc, hak'⟩ :=
                  hskip { mcp_oauth_tokens := some mo } rfl
                refine ⟨c, ?_, hak'⟩
                simp [hs, hj, hg, he, hak, pyTruthyOpt, ht]
                simpa using hc
            | none =>
              right; left
              obtain ⟨c, hc, hak'⟩ :=
                hskip { mcp_oauth_tokens := some mo } rfl
              refine ⟨c, ?_, hak'⟩
              simp [hs, hj, hg, he, hak, pyTruthyOpt]
              simpa using hc

/-- The guard of the first resolution step, as in the source:
`claude_code_api_key and claude_code_api_key.startswith("sk-ant-")`. -/
def matchesApiKeyShape : Option String → Bool
  | some s => s != "" && pyStartswith s "sk-ant-"
  | none => false

/-- Case split of `get_claude_credentials`: a matching store-one payload
(one query); a truthy store-two extraction (two queries); a fall-through
to store three with no `api_key` (three queries); or an exception after
the store-two query. -/
theorem gcc_shape (kc : Keychain) (account : Option String) :
    (∃ s, get_claude_credentials kc account =
        (Except.ok { api_key := some (Json.str s), mcp_oauth_tokens := none,
                     session_token := none },
         [("Claude Code", account)])
        ∧ s ≠ "" ∧ pyStartswith s "sk-ant-" = true)
    ∨ (∃ v mo, get_claude_credentials kc account =
        (Except.ok { api_key := some v, mcp_oauth_tokens := some mo,
                     session_token := none },
         [("Claude Code", account), ("Claude Code-credentials", account)])
        ∧ pyTruthy v = true)
    ∨ (∃ c, get_claude_credentials kc account =
        (Except.ok c,
         [("Claude Code", account), ("Claude Code-credentials", account),
          ("Claude Safe Storage", none)])
        ∧ c.api_key = none)
    ∨ (∃ e, get_claude_credentials kc account =
        (Except.error e,
         [("Claude Code", account), ("Claude Code-credentials", account)])) := by
  have h2shape := gccStep2_shape kc account
  unfold get_claude_credentials
  cases hk : _get_keychain_password kc "Claude Code" account with
  | none =>
    rcases h2shape with ⟨v, mo, h2, ht⟩ | ⟨c, h2, hak⟩ | ⟨e, h2⟩
    · right; left; exact ⟨v, mo, by simp [h2], ht⟩
    · right; right; left; exact ⟨c, by simp [h2], hak⟩
    · right; right; right; exact ⟨e, by simp [h2]⟩
  | some s =>
    by_cases hs : (s != "" && pyStartswith s "sk-ant-") = true
    · left
      refine ⟨s, by simp [hs], ?_, ((Bool.and_eq_true _ _).mp hs).2⟩
      have := ((Bool.and_eq_true _ _).mp hs).1
      simpa [bne_iff_ne] using this
    · have hs' : (s != "" && pyStartswith s "sk-ant-") = false := by
        simpa using hs
      rcases h2shape with ⟨v, mo, h2, ht⟩ | ⟨c, h2, hak⟩ | ⟨e, h2⟩
      · right; left; exact ⟨v, mo, by simp [hs', h2], ht⟩
      · right; right; left; exact ⟨c, by simp [hs', h2], hak⟩
      · right; right; right; exact ⟨e, by simp [hs', h2]⟩

/-- Whenever `get_claude_credentials` returns a bundle with `api_key`
set, the stored value is truthy. -/
theorem gcc_api_key_truthy (kc : Keychain) (account : Option String)
    (c : ClaudeCredentials)
    (h : (get_claude_credentials kc account).1 = Except.ok c)
    (v : Json) (hv : c.api_key = some v) : pyTruthy v = true := by
  rcases gcc_shape kc account with ⟨s, hg, hs, _⟩ | ⟨v', mo, hg, ht⟩ | ⟨c', hg, hak⟩ | ⟨e, hg⟩
  · rw [hg] at h
    cases h
    cases hv
    simpa [pyTruthy, bne_iff_ne] using hs
  · rw [hg] at h
    cases h
    cases hv
    exact ht
  · rw [hg] at h
    cases h
    rw [hak] at hv
    cases hv
  · rw [hg] at h
    cases h

/-- With a truthy environment override, `get_anthropic_api_key` returns
it and issues no keychain query. -/
theorem gaak_env (kc : Keychain) (s : String) (hs : s ≠ "") :
    get_anthropic_api_key (some s) kc = (Except.ok (some (Json.str s)), []) := by
  unfold get_anthropic_api_key
  simp [hs]

/-- An empty environment override behaves exactly like an absent one. -/
theorem gaak_empty_env (kc : Keychain) :
    get_anthropic_api_key (some "") kc = get_anthropic_api_key none kc := rfl

/-- Without an override, `get_anthropic_api_key` is the delegation to
`get_claude_credentials` (no account), truthy `api_key` returned. -/
theorem gaak_none (kc : Keychain) :
    get_anthropic_api_key none kc =
      (Except.map
         (fun credentials : ClaudeCredentials =>
           if pyTruthyOpt credentials.api_key then credentials.api_key else none)
         (get_claude_credentials kc none).1,
       (get_claude_credentials kc none).2) := by
  unfold get_anthropic_api_key
  rcases hg : get_claude_credentials kc none with ⟨r1, r2⟩
  cases r1 with
  | error e => simp [Except.map]
  | ok c => simp [Except.map]

/-- Whenever `get_anthropic_api_key` returns a value, that value is
truthy. -/
theorem gaak_truthy (env : Option String) (kc : Keychain) (v : Json)
    (h : (get_anthropic_api_key env kc).1 = Except.ok (some v)) :
    pyTruthy v = true := by
  have hdel : ∀ kc' : Keychain,
      (get_anthropic_api_key none kc').1 = Except.ok (some v) →
      pyTruthy v = true := by
    intro kc' h'
    rw [gaak_none kc'] at h'
    cases hr : (get_claude_credentials kc' none).1 with
    | error e => rw [hr] at h'; cases h'
    | ok c =>
      rw [hr] at h'
      by_cases ht : pyTruthyOpt c.api_key = true
      · simp only [Except.map, ht, if_true] at h'
        cases hak : c.api_key with
        | none => rw [hak] at h'; cases h'
        | some v' =>
          rw [hak] at h' ht
          cases h'
          simpa [pyTruthyOpt] using ht
      · simp only [Except.map, ht, Bool.not_eq_true] at h'
        simp at h'
  cases env with
  | none => exact hdel kc h
  | some s =>
    by_cases hs : s = ""
    · subst hs
      rw [gaak_empty_env] at h
      exact hdel kc h
    · rw [gaak_env kc s hs] at h
      cases h
      simpa [pyTruthy, bne_iff_ne] using hs

/-- When the store-one guard fails, resolution is the store-two/three
fall-through prefixed by the store-one query. -/
theorem gcc_no_match (kc : Keychain) (account : Option String)
    (h1 : matchesApiKeyShape (_get_keychain_password kc "Claude Code" account) = false) :
    get_claude_credentials kc account =
      ((gccStep2 kc account {}).1,
       ("Claude Code", account) :: (gccStep2 kc account {}).2) := by
  unfold get_claude_credentials
  cases hk : _get_keychain_password kc "Claude Code" account with
  | none => simp
  | some s =>
    rw [hk] at h1
    simp only [matchesApiKeyShape] at h1
    simp [h1]

/-- When store two is empty, falsy, or malformed JSON, step two reduces
to the store-three step prefixed by the store-two query. -/
theorem gccStep2_skip (kc : Keychain) (account : Option String)
    (cr : ClaudeCredentials)
    (h : ∀ p, _get_keychain_password kc "Claude Code-credentials" account = some p →
        p = "" ∨ json_loads p = none) :
    gccStep2 kc account cr =
      ((gccStep3 kc cr).1,
       ("Claude Code-credentials", account) :: (gccStep3 kc cr).2) := by
  unfold gccStep2
  cases hk : _get_keychain_password kc "Claude Code-credentials" account with
  | none => simp
  | some p =>
    rcases h p hk with hp | hp
    · subst hp; simp
    · by_cases hpe : p = ""
      · subst hpe; simp
      · have hb : (p == "") = false := by simpa using hpe
        simp [hb, hp]

/-! ### Claims -/

/-- Keychain with no entries at all. -/
def kcEmpty : Keychain := fun _ _ => none

/-- Keychain whose `"Claude Code-credentials"` entry is valid JSON but
not a JSON object. -/
def kcC1 : Keychain := fun service _ =>
  if service = "Claude Code-credentials" then some "[1, 2]" else none

/-- C1: the claim says `get_claude_credentials` and
`get_anthropic_api_key` never raise, for every payload including valid
JSON that is not an object. The code violates this: on a JSON-array
payload from the second store, `creds_data.get("mcpOAuth", {})` raises
`AttributeError` (only `json.JSONDecodeError` is caught), and the
exception propagates out of both entry points. -/
theorem C1_raises_on_non_object_json :
    (get_claude_credentials kcC1 none).1 = Except.error PyError.attributeError
    ∧ (get_anthropic_api_key none kcC1).1 = Except.error PyError.attributeError :=
  ⟨rfl, rfl⟩

/-- C2: a present and non-empty `ANTHROPIC_API_KEY` override is returned
exactly, with zero store queries; an absent or empty override delegates
to `get_claude_credentials` (same queries) and returns its `api_key`
(absent when none was resolved). -/
theorem C2_override_precedence (env : Option String) (kc : Keychain) :
    (∀ s, env = some s → s ≠ "" →
        get_anthropic_api_key env kc = (Except.ok (some (Json.str s)), []))
    ∧ ((env = none ∨ env = some "") →
        (get_anthropic_api_key env kc).2 = (get_claude_credentials kc none).2
        ∧ ∀ c, (get_claude_credentials kc none).1 = Except.ok c →
            (get_anthropic_api_key env kc).1 = Except.ok c.api_key) := by
  constructor
  · intro s hs hne
    subst hs
    exact gaak_env kc s hne
  · intro henv
    have heq : get_anthropic_api_key env kc = get_anthropic_api_key none kc := by
      rcases henv with h | h
      · subst h; rfl
      · subst h; exact gaak_empty_env kc
    rw [heq, gaak_none kc]
    refine ⟨rfl, ?_⟩
    intro c hc
    rw [hc]
    simp only [Except.map]
    by_cases ht : pyTruthyOpt c.api_key = true
    · rw [if_pos ht]
    · rw [if_neg ht]
      cases hak : c.api_key with
      | none => rfl
      | some v =>
        exact absurd (by simpa [pyTruthyOpt, hak] using
          gcc_api_key_truthy kc none c hc v hak) ht

/-- Witness for C2 at a concrete override and a concrete keychain. -/
theorem C2_witness :
    get_anthropic_api_key (some "sk-test") kcEmpty
        = (Except.ok (some (Json.str "sk-test")), [])
    ∧ (get_anthropic_api_key none kcEmpty).1 = Except.ok none := by
  constructor
  · exact (C2_override_precedence (some "sk-test") kcEmpty).1 "sk-test" rfl (by decide)
  · exact ((C2_override_precedence none kcEmpty).2 (Or.inl rfl)).2
      ⟨none, none, none⟩ (by rfl)

/-- Keychain whose `"Claude Code"` entry is a matching plain credential. -/
def kcC4 : Keychain := fun service _ =>
  if service = "Claude Code" then some "sk-ant-abc" else none

/-- C4: a store-one payload with the `sk-ant-` prefix is stored as
`api_key` exactly and resolution returns at once; stores two and three
are never queried. -/
theorem C4_first_store_short_circuit (kc : Keychain) (account : Option String)
    (s : String)
    (h1 : _get_keychain_password kc "Claude Code" account = some s)
    (h2 : pyStartswith s "sk-ant-" = true) :
    get_claude_credentials kc account =
      (Except.ok { api_key := some (Json.str s), mcp_oauth_tokens := none,
                   session_token := none },
       [("Claude Code", account)]) := by
  have hne : s ≠ "" := by
    intro he
    subst he
    exact absurd h2 (by decide)
  have hb : (s != "") = true := by simpa [bne_iff_ne] using hne
  unfold get_claude_credentials
  rw [h1]
  simp [hb, h2]

/-- Witness for C4 at a concrete keychain. -/
theorem C4_witness :
    get_claude_credentials kcC4 none =
      (Except.ok { api_key := some (Json.str "sk-ant-abc"), mcp_oauth_tokens := none,
                   session_token := none },
       [("Claude Code", none)]) :=
  C4_first_store_short_circuit kcC4 none "sk-ant-abc" (by decide) (by decide)

/-- C10: `setup_environment` ignores its `account` argument: for the same
override environment and store contents, any two account arguments give
equal results, because `get_anthropic_api_key` takes no account and calls
`get_claude_credentials` with none. -/
theorem C10_account_ignored (env : Option String) (kc : Keychain)
    (a1 a2 : Option String) :
    setup_environment env kc a1 = setup_environment env kc a2 := rfl

/-- The payload of the C3 counterexample: top-level credential field
present but empty, nested provider credential non-empty. -/
def c3Payload : String :=
  "\x7b\"apiKey\": \"\", \"anthropic\": \x7b\"apiKey\": \"sk-ant-x\"\x7d\x7d"

/-- C3, counterexample: the claim says the first rule that yields a
NON-EMPTY string wins, so the nested value would be extracted here. The
code instead returns the present-but-empty top-level value. -/
theorem C3_counterexample :
    _extract_api_key_from_mcp_credentials c3Payload = Except.ok (some (Json.str ""))
    ∧ _extract_api_key_from_mcp_credentials c3Payload
        ≠ Except.ok (some (Json.str "sk-ant-x")) := by
  refine ⟨rfl, ?_⟩
  intro hcontra
  rw [show _extract_api_key_from_mcp_credentials c3Payload
        = Except.ok (some (Json.str "")) from rfl] at hcontra
  injection hcontra with h1
  injection h1 with h2
  injection h2 with h3
  exact absurd h3 (by decide)

/-- C3, amended: on a JSON object the extraction checks, in fixed order,
(a) presence of the top-level `"apiKey"` field — its value is returned
as-is, even when empty; (b) otherwise presence of `"apiKey"` under an
object-valued `"anthropic"` field — returned as-is; (c) otherwise the
`"mcpOAuth"` field is only recorded and `None` is returned. Presence,
not non-emptiness, decides each rule. -/
theorem C3_extraction_order (p : String) (d : List (String × Json))
    (h : json_loads p = some (Json.obj d)) :
    _extract_api_key_from_mcp_credentials p =
      Except.ok
        (match List.lookup "apiKey" d with
         | some v => some v
         | none =>
           match List.lookup "anthropic" d with
           | some (Json.obj a) => List.lookup "apiKey" a
           | _ => none) := by
  unfold _extract_api_key_from_mcp_credentials
  rw [h]
  simp only [pyContains, any_key_eq_lookup]
  cases hl : List.lookup "apiKey" d with
  | some v => simp [pySubscript, hl]
  | none =>
    simp only [hl, Option.isSome_none]
    cases hl2 : List.lookup "anthropic" d with
    | none => simp
    | some sub =>
      simp only [hl2, Option.isSome_some]
      cases sub with
      | obj a =>
        simp only [pySubscript, hl2, Except.map, pyContains, any_key_eq_lookup]
        cases hl3 : List.lookup "apiKey" a with
        | some v => simp [hl3]
        | none => simp [hl3]
      | null => simp [pySubscript, hl2, Except.map]
      | bool b => simp [pySubscript, hl2, Except.map]
      | num n => simp [pySubscript, hl2, Except.map]
      | str s => simp [pySubscript, hl2, Except.map]
      | arr l => simp [pySubscript, hl2, Except.map]

/-- The payload of the C3 witness: no top-level credential, nested
provider credential present. -/
def c3WitnessPayload : String :=
  "\x7b\"anthropic\": \x7b\"apiKey\": \"sk-ant-n\"\x7d\x7d"

/-- Witness for C3 (amended) at a concrete payload. -/
theorem C3_witness :
    _extract_api_key_from_mcp_credentials c3WitnessPayload
      = Except.ok (some (Json.str "sk-ant-n")) :=
  C3_extraction_order c3WitnessPayload
    [("anthropic", Json.obj [("apiKey", Json.str "sk-ant-n")])] rfl

/-- C5: store one not matching, store two a JSON object from which a
truthy credential is extracted: that value becomes `api_key`, the
object's `"mcpOAuth"` value (defaulting to `{}`) is recorded as
`mcp_oauth_tokens`, and store three is never queried. -/
theorem C5_second_store_extraction (kc : Keychain) (account : Option String)
    (p : String) (d : List (String × Json)) (v : Json)
    (h1 : matchesApiKeyShape (_get_keychain_password kc "Claude Code" account) = false)
    (h2 : _get_keychain_password kc "Claude Code-credentials" account = some p)
    (h3 : json_loads p = some (Json.obj d))
    (h4 : _extract_api_key_from_mcp_credentials p = Except.ok (some v))
    (h5 : pyTruthy v = true) :
    get_claude_credentials kc account =
      (Except.ok { api_key := some v,
                   mcp_oauth_tokens := some ((List.lookup "mcpOAuth" d).getD (Json.obj [])),
                   session_token := none },
       [("Claude Code", account), ("Claude Code-credentials", account)]) := by
  rw [gcc_no_match kc account h1]
  have hp : (p == "") = false := by
    by_cases hpe : p = ""
    · subst hpe
      rw [show json_loads "" = none from rfl] at h3
      cases h3
    · simpa using hpe
  unfold gccStep2
  rw [h2]
  simp [hp, h3, h4, pyGet, pyTruthyOpt, h5]

/-- Keychain for the C5 witness: the concrete scenario of the spec. -/
def kcC5 : Keychain := fun service _ =>
  if service = "Claude Code-credentials" then
    some "\x7b\"mcpOAuth\": \x7b\"svc1\": \x7b\"accessToken\": \"tok\"\x7d\x7d, \"anthropic\": \x7b\"apiKey\": \"sk-ant-xyz123\"\x7d\x7d"
  else none

/-- Witness for C5 at the spec's concrete scenario. -/
theorem C5_witness :
    get_claude_credentials kcC5 none =
      (Except.ok { api_key := some (Json.str "sk-ant-xyz123"),
                   mcp_oauth_tokens :=
                     some (Json.obj [("svc1", Json.obj [("accessToken", Json.str "tok")])]),
                   session_token := none },
       [("Claude Code", none), ("Claude Code-credentials", none)]) :=
  C5_second_store_extraction kcC5 none
    "\x7b\"mcpOAuth\": \x7b\"svc1\": \x7b\"accessToken\": \"tok\"\x7d\x7d, \"anthropic\": \x7b\"apiKey\": \"sk-ant-xyz123\"\x7d\x7d"
    [("mcpOAuth", Json.obj [("svc1", Json.obj [("accessToken", Json.str "tok")])]),
     ("anthropic", Json.obj [("apiKey", Json.str "sk-ant-xyz123")])]
    (Json.str "sk-ant-xyz123")
    (by decide) (by decide) (by rfl) (by rfl) (by decide)

/-- C6: when store one does not match and store two returns a payload
that is not valid JSON, nothing is raised, store three is queried, and
`mcp_oauth_tokens` stays unset. -/
theorem C6_malformed_json_proceeds (kc : Keychain) (account : Option String)
    (p : String)
    (h1 : matchesApiKeyShape (_get_keychain_password kc "Claude Code" account) = false)
    (h2 : _get_keychain_password kc "Claude Code-credentials" account = some p)
    (h3 : json_loads p = none) :
    (get_claude_credentials kc account).2 =
        [("Claude Code", account), ("Claude Code-credentials", account),
         ("Claude Safe Storage", none)]
    ∧ ∃ c, (get_claude_credentials kc account).1 = Except.ok c
        ∧ c.mcp_oauth_tokens = none := by
  rw [gcc_no_match kc account h1]
  rw [gccStep2_skip kc account {} (fun p' hp' => by
    rw [h2] at hp'
    injection hp' with hp''
    exact Or.inr (hp'' ▸ h3))]
  obtain ⟨c, hc, _, hmcp⟩ := gccStep3_fields kc {}
  rw [hc]
  exact ⟨rfl, c, rfl, hmcp⟩

/-- Keychain for the C6 witness: store two holds malformed JSON, store
three holds an opaque blob. -/
def kcC6 : Keychain := fun service _ =>
  if service = "Claude Code-credentials" then some "not json"
  else if service = "Claude Safe Storage" then some "blob" else none

/-- Witness for C6 at a concrete keychain. -/
theorem C6_witness :
    (get_claude_credentials kcC6 none).2 =
        [("Claude Code", none), ("Claude Code-credentials", none),
         ("Claude Safe Storage", none)]
    ∧ ∃ c, (get_claude_credentials kcC6 none).1 = Except.ok c
        ∧ c.mcp_oauth_tokens = none :=
  C6_malformed_json_proceeds kcC6 none "not json" (by decide) (by decide) (by rfl)

/-- C7: under the same override environment and store contents,
`setup_environment` issues the same queries as `get_anthropic_api_key`
and returns exactly the one-entry mapping ANTHROPIC_API_KEY to v when the latter returns a
value `v`, and the empty mapping when it returns `None`. -/
theorem C7_setup_environment_roundtrip (env : Option String) (kc : Keychain)
    (account : Option String) :
    (setup_environment env kc account).2 = (get_anthropic_api_key env kc).2
    ∧ (∀ v, (get_anthropic_api_key env kc).1 = Except.ok (some v) →
        (setup_environment env kc account).1
          = Except.ok [("ANTHROPIC_API_KEY", v)])
    ∧ ((get_anthropic_api_key env kc).1 = Except.ok none →
        (setup_environment env kc account).1 = Except.ok []) := by
  have htr := gaak_truthy env kc
  unfold setup_environment
  rcases hg : get_anthropic_api_key env kc with ⟨r1, r2⟩
  refine ⟨?_, ?_, ?_⟩
  · cases r1 with
    | error e => rfl
    | ok ak =>
      cases ak with
      | none => rfl
      | some v =>
        by_cases ht : pyTruthy v = true
        · simp [ht]
        · simp [ht]
  · intro v hv
    simp only at hv
    subst hv
    have ht : pyTruthy v = true := htr v (by rw [hg])
    simp [ht]
  · intro h0
    simp only at h0
    subst h0
    rfl

/-- Witness for C7 at a concrete override and at an empty keychain. -/
theorem C7_witness :
    (setup_environment (some "sk-w") kcEmpty none).1
        = Except.ok [("ANTHROPIC_API_KEY", Json.str "sk-w")]
    ∧ (setup_environment none kcEmpty none).1 = Except.ok [] := by
  constructor
  · exact (C7_setup_environment_roundtrip (some "sk-w") kcEmpty none).2.1
      (Json.str "sk-w") (by rfl)
  · exact (C7_setup_environment_roundtrip none kcEmpty none).2.2 (by rfl)

/-- C8: in every bundle `get_claude_credentials` returns, once `api_key`
is set resolution has terminated (store three was never queried:
the query list is one or two entries), and `session_token` is set only
when `api_key` is absent: the two are never both set. -/
theorem C8_primary_session_exclusive (kc : Keychain) (account : Option String)
    (c : ClaudeCredentials)
    (h : (get_claude_credentials kc account).1 = Except.ok c) :
    (c.api_key.isSome = true →
        c.session_token = none
        ∧ ((get_claude_credentials kc account).2 = [("Claude Code", account)]
            ∨ (get_claude_credentials kc account).2 =
                [("Claude Code", account), ("Claude Code-credentials", account)]))
    ∧ (c.session_token.isSome = true → c.api_key = none) := by
  rcases gcc_shape kc account with ⟨s, hg, _, _⟩ | ⟨v, mo, hg, _⟩ | ⟨c', hg, hak⟩ | ⟨e, hg⟩
  · rw [hg] at h
    cases h
    exact ⟨fun _ => ⟨rfl, Or.inl (by rw [hg])⟩, fun hsess => by simp at hsess⟩
  · rw [hg] at h
    cases h
    exact ⟨fun _ => ⟨rfl, Or.inr (by rw [hg])⟩, fun hsess => by simp at hsess⟩
  · rw [hg] at h
    cases h
    refine ⟨fun hap => ?_, fun _ => hak⟩
    rw [hak] at hap
    simp at hap
  · rw [hg] at h
    cases h

/-- Witness for C8 at a concrete keychain resolving from store one. -/
theorem C8_witness :
    ({ api_key := some (Json.str "sk-ant-abc"), mcp_oauth_tokens := none,
       session_token := none } : ClaudeCredentials).session_token = none
    ∧ ((get_claude_credentials kcC4 none).2 = [("Claude Code", none)]
        ∨ (get_claude_credentials kcC4 none).2 =
            [("Claude Code", none), ("Claude Code-credentials", none)]) :=
  (C8_primary_session_exclusive kcC4 none
    { api_key := some (Json.str "sk-ant-abc"), mcp_oauth_tokens := none,
      session_token := none } (by rfl)).1 rfl

/-- C9: when all three stores return absent, `get_claude_credentials`
returns an all-absent bundle (after querying all three stores) and
`get_anthropic_api_key` without an override returns absent. -/
theorem C9_all_stores_absent (kc : Keychain)
    (h1 : ∀ a, _get_keychain_password kc "Claude Code" a = none)
    (h2 : ∀ a, _get_keychain_password kc "Claude Code-credentials" a = none)
    (h3 : _get_keychain_password kc "Claude Safe Storage" none = none) :
    (∀ account, get_claude_credentials kc account =
        (Except.ok { api_key := none, mcp_oauth_tokens := none,
                     session_token := none },
         [("Claude Code", account), ("Claude Code-credentials", account),
          ("Claude Safe Storage", none)]))
    ∧ get_anthropic_api_key none kc =
        (Except.ok none,
         [("Claude Code", none), ("Claude Code-credentials", none),
          ("Claude Safe Storage", none)]) := by
  have hgcc : ∀ account, get_claude_credentials kc account =
      (Except.ok { api_key := none, mcp_oauth_tokens := none,
                   session_token := none },
       [("Claude Code", account), ("Claude Code-credentials", account),
        ("Claude Safe Storage", none)]) := by
    intro account
    unfold get_claude_credentials gccStep2 gccStep3
    rw [h1 account, h2 account, h3]
  refine ⟨hgcc, ?_⟩
  rw [gaak_none kc, hgcc none]
  simp [Except.map, pyTruthyOpt]

/-- Witness for C9 at the empty keychain. -/
theorem C9_witness :
    get_claude_credentials kcEmpty none =
        (Except.ok { api_key := none, mcp_oauth_tokens := none,
                     session_token := none },
         [("Claude Code", none), ("Claude Code-credentials", none),
          ("Claude Safe Storage", none)])
    ∧ get_anthropic_api_key none kcEmpty =
        (Except.ok none,
         [("Claude Code", none), ("Claude Code-credentials", none),
          ("Claude Safe Storage", none)]) := by
  have h := C9_all_stores_absent kcEmpty (fun a => rfl) (fun a => rfl) rfl
  exact ⟨h.1 none, h.2⟩
